import Mathlib

/-!
Shallow embedding of the test-report wizard bot (src/bot.py).

The bot is an aiogram finite-state-machine conversation: a per-user session
holds a phase (aiogram `State`), a data dictionary (`FSMContext` data) and a
media bucket.  We embed the session record, the incoming events, and the
dispatch of one event to the first matching handler (aiogram triggers
handlers in registration order).  Replies are the texts passed to
`message.answer` / `call.message.answer`; the `call.answer()` callback acks
are not replies and are not modelled.  Delivery sends are the
`bot.send_message` / `send_photo` / `send_video` calls to the target chat;
the Telegram transport is modelled as an oracle giving, for the i-th send
attempt of a delivery, either success or a `TelegramBadRequest` fault
detail.  Whitespace, for trimming, is ASCII whitespace (`pyStrip` below
models Python `str.strip`); Python `str.lower` is modelled on ASCII and
Cyrillic letters, which is extensionally faithful for the membership test
against the lowercase tokens the code uses.
-/

namespace Bot

/-- The aiogram states of `class Form(StatesGroup)` in src/bot.py, plus
`nostate` for a cleared context (no active session). -/
inductive Phase
  | nostate
  | product
  | game_title
  | device
  | app_version
  | settings
  | fps
  | issues
  | extra
  | author
  | media
  | confirm
deriving DecidableEq

/-- `MediaBucket` dataclass: ordered photo and video file-id lists. -/
structure MediaBucket where
  photos : List String
  videos : List String
deriving DecidableEq

/-- The FSM data dictionary: each key the handlers ever write, absent keys
are `Option.none` (Python `data.get(key)` returning `None`). -/
structure FormData where
  product : Option String
  game_title : Option String
  device : Option String
  app_version : Option String
  settings : Option String
  fps : Option String
  issues : Option String
  extra : Option String
  author : Option String
  media_bucket : Option MediaBucket
deriving DecidableEq

def emptyFormData : FormData :=
  ⟨Option.none, Option.none, Option.none, Option.none, Option.none,
   Option.none, Option.none, Option.none, Option.none, Option.none⟩

/-- One user's session: current phase plus FSM data. -/
structure Session where
  phase : Phase
  data : FormData
deriving DecidableEq

/-- A cleared FSM context (`state.clear()`): no state, empty data. -/
def emptySession : Session := ⟨Phase.nostate, emptyFormData⟩

/-- Incoming events, as the dispatcher sees them.  `textMsg`, `photoMsg`
and `videoMsg` are all `Message` updates (a photo or video message has
`message.text = None`); `photoMsg v0 rest` carries the non-empty size-variant
list `v0 :: rest` of which the code takes the last (highest resolution).
`callbackMsg d` is a button press with callback data `d`. -/
inductive Event
  | startCmd
  | cancelCmd
  | textMsg (t : Option String)
  | photoMsg (v0 : String) (rest : List String)
  | videoMsg (fid : String)
  | callbackMsg (d : String)
deriving DecidableEq

/-- One send to the target chat through the Delivery Gateway. -/
inductive Send
  | doc (text : String)
  | photo (fid : String)
  | video (fid : String)
deriving DecidableEq

/-- Result of handling one event: the new session, the reply texts sent to
the user (in order), and the sends delivered to the target chat. -/
structure StepResult where
  session : Session
  replies : List String
  delivered : List Send
deriving DecidableEq

/-- Destination configuration (`_load_config`): optional target chat id. -/
structure Config where
  target_chat_id : Option Int
deriving DecidableEq

/-- Python truthiness of the optional chat id: `if not target_chat_id`
treats both `None` and `0` as unconfigured. -/
def truthyChat : Option Int → Bool
  | Option.none => false
  | Option.some n => decide (n ≠ 0)

/-- Python `str.lower` on one character, restricted to ASCII letters and
the Cyrillic range (А-Я and Ё); other characters are fixed points here
while Python may lower them, but no such character can produce any of the
lowercase tokens compared against, so the comparisons below agree. -/
def pyLowerChar (c : Char) : Char :=
  if 'A' ≤ c ∧ c ≤ 'Z' then Char.ofNat (c.toNat + 32)
  else if 'А' ≤ c ∧ c ≤ 'Я' then Char.ofNat (c.toNat + 32)
  else if c = 'Ё' then 'ё'
  else c

def pyLower (s : String) : String := ⟨s.data.map pyLowerChar⟩

/-- Python `str.strip()` on the character list: drop whitespace from the
front, then from the back. -/
def listStrip (l : List Char) : List Char :=
  List.rdropWhile Char.isWhitespace (List.dropWhile Char.isWhitespace l)

/-- Python `str.strip()`: whitespace here is ASCII whitespace. -/
def pyStrip (s : String) : String := ⟨listStrip s.data⟩

/-- The negative tokens of the `issues` / `extra` handlers:
`{"нет", "no", "-"}`. -/
def negTokens : List String := ["нет", "no", "-"]

/-- Normalization shared by the `issues` and `extra` handlers:
`txt = (message.text or "").strip()`, then store `""` when
`txt.lower() in {"нет", "no", "-"}`, else `txt`. -/
def normNeg (t : Option String) : String :=
  if negTokens.contains (pyLower (pyStrip (t.getD ""))) then ""
  else pyStrip (t.getD "")

/-- `s.startswith(p)` on the character level. -/
def pyStartsWith (s p : String) : Bool := p.data.isPrefixOf s.data

/-- Drop the first `n` characters of a string. -/
def pyDropChars (s : String) (n : Nat) : String := ⟨s.data.drop n⟩

/-- The `g` helper of `_format_post`: `(data.get(key) or "").strip()`. -/
def gval (v : Option String) : String := pyStrip (v.getD "")

/-- `product_title = "Winlator" if product == "winlator" else "GameHub"`. -/
def productTitle (d : FormData) : String :=
  if d.product = Option.some "winlator" then "Winlator" else "GameHub"

def headerLine (pt : String) : String :=
  "<b>Тест игры (" ++ pt ++ ") от комьюнити</b>"

def gameLine (v : String) : String := "<b>Название игры:</b> " ++ v

def deviceLine (v : String) : String := "<b>Устройство:</b> " ++ v

def versionLine (pt v : String) : String :=
  "<b>Версия " ++ pt ++ ":</b> " ++ v

def settingsLine (v : String) : String := "<b>Настройки:</b> " ++ v

def fpsLine (v : String) : String := "<b>FPS/производительность:</b> " ++ v

def issuesLine (v : String) : String := "<b>Проблемы/баги:</b> " ++ v

def extraLine (v : String) : String := "<b>Дополнительно:</b> " ++ v

def authorLine (v : String) : String := "<b>Автор теста:</b> " ++ v

/-- The `lines` list built by `_format_post`: header, blank, the five core
field lines, then `issues` / `extra` lines only when non-empty, then a
blank line and the author line only when the author is non-empty. -/
def format_post_lines (d : FormData) : List String :=
  let pt := productTitle d
  [headerLine pt, "", gameLine (gval d.game_title),
   deviceLine (gval d.device), versionLine pt (gval d.app_version),
   settingsLine (gval d.settings), fpsLine (gval d.fps)]
  ++ (if gval d.issues ≠ "" then [issuesLine (gval d.issues)] else [])
  ++ (if gval d.extra ≠ "" then [extraLine (gval d.extra)] else [])
  ++ (if gval d.author ≠ "" then ["", authorLine (gval d.author)] else [])

/-- `_format_post`: `"\n".join(lines)`. -/
def format_post (d : FormData) : String :=
  String.intercalate "\n" (format_post_lines d)

/-- `_ensure_media_bucket`: the stored bucket, or an empty one. -/
def ensure_media_bucket (d : FormData) : MediaBucket :=
  d.media_bucket.getD ⟨[], []⟩

def startPrompt : String := "Выбери, для чего заполняем тест:"

def cancelMsg : String := "Ок, отменено. Напиши /start чтобы начать заново."

def titlePrompt : String := "Название игры (текст):"

def devicePrompt : String :=
  "Устройство (модель/проц/ОЗУ), можно одной строкой:"

def versionPrompt (pt : String) : String :=
  "Версия " ++ pt ++ " (например 7.1.3 / 5.3.3):"

def settingsPrompt : String :=
  "Настройки (разрешение/рендер/драйвер/прочее). Можно списком в одном сообщении:"

def fpsPrompt : String :=
  "FPS/производительность (например 30-60, просадки где):"

def issuesPrompt : String :=
  "Проблемы/баги (если нет — напиши \x27нет\x27):"

def extraPrompt : String :=
  "Дополнительно (опционально). Если нечего — напиши \x27нет\x27:"

def authorPrompt : String :=
  "Автор теста (ник/ссылка). Например @nickname:"

def mediaPrompt : String :=
  "Теперь отправь скриншоты и/или видео теста.\nМожно несколькими сообщениями. Когда закончишь — нажми «Готово»."

def previewPrefix : String := "Проверь предпросмотр поста:\n\n"

def restartMsg : String := "Ок. Выбери, для чего заполняем тест:"

def noTargetMsg : String :=
  "Не настроен чат-получатель.\nДобавь бота в закрытый чат и напиши там /set_target (от админа)."

def sentOkMsg : String :=
  "Готово. Отправил результат. Напиши /start чтобы сделать ещё один."

def errPrefix : String := "Ошибка отправки: "

/-- No handler matched: aiogram drops the update, nothing happens. -/
def noop (s : Session) : StepResult := ⟨s, [], []⟩

/-- Dispatch of a `Message` update to the `@dp.message(Form.xxx)` handlers.
Each of those handlers is filtered only by state, so it matches any message
in that state and reads `message.text or ""` (a photo or video message has
no text, hence `t = Option.none` for those).  States with no plain message
handler (`product`, `media` for non-media messages, `confirm`, cleared)
leave the update unhandled. -/
def textPhaseStep (s : Session) (t : Option String) : StepResult :=
  match s.phase with
  | Phase.game_title =>
      ⟨⟨Phase.device, { s.data with game_title := Option.some (t.getD "") }⟩,
        [devicePrompt], []⟩
  | Phase.device =>
      let d2 := { s.data with device := Option.some (t.getD "") }
      ⟨⟨Phase.app_version, d2⟩, [versionPrompt (productTitle d2)], []⟩
  | Phase.app_version =>
      ⟨⟨Phase.settings, { s.data with app_version := Option.some (t.getD "") }⟩,
        [settingsPrompt], []⟩
  | Phase.settings =>
      ⟨⟨Phase.fps, { s.data with settings := Option.some (t.getD "") }⟩,
        [fpsPrompt], []⟩
  | Phase.fps =>
      ⟨⟨Phase.issues, { s.data with fps := Option.some (t.getD "") }⟩,
        [issuesPrompt], []⟩
  | Phase.issues =>
      ⟨⟨Phase.extra, { s.data with issues := Option.some (normNeg t) }⟩,
        [extraPrompt], []⟩
  | Phase.extra =>
      ⟨⟨Phase.author, { s.data with extra := Option.some (normNeg t) }⟩,
        [authorPrompt], []⟩
  | Phase.author =>
      ⟨⟨Phase.media,
         { s.data with
             author := Option.some (t.getD "")
             media_bucket := Option.some ⟨[], []⟩ }⟩,
        [mediaPrompt], []⟩
  | _ => noop s

/-- The planned delivery sequence of the `send` handler: the rendered
document first, then every photo in insertion order, then every video in
insertion order. -/
def sendPlan (d : FormData) : List Send :=
  Send.doc (format_post d)
    :: ((ensure_media_bucket d).photos.map Send.photo
        ++ (ensure_media_bucket d).videos.map Send.video)

/-- Execute planned sends in order starting at attempt index `i`: each
attempt either succeeds (`gw i = none`) or raises a fault whose detail
aborts the rest (the `try` block of the `send` handler).  Returns the
sends actually delivered and the fault, if any. -/
def runSends (gw : Nat → Option String) : Nat → List Send → List Send × Option String
  | _, [] => ([], Option.none)
  | i, x :: rest =>
      match gw i with
      | Option.some err => ([], Option.some err)
      | Option.none =>
          let r := runSends gw (i + 1) rest
          (x :: r.1, r.2)

/-- The `confirm:send` handler body: refuse without a truthy target chat
id; otherwise run the send plan, surface a fault and keep the session, or
clear the session on full success. -/
def sendFlow (gw : Nat → Option String) (cfg : Config) (s : Session) : StepResult :=
  if truthyChat cfg.target_chat_id = false then
    ⟨s, [noTargetMsg], []⟩
  else
    let r := runSends gw 0 (sendPlan s.data)
    match r.2 with
    | Option.some err => ⟨s, [errPrefix ++ err], r.1⟩
    | Option.none => ⟨emptySession, [sentOkMsg], r.1⟩

/-- Dispatch of a callback (button press) update.  The `cancel` button
matches in every state; `product:`-prefixed callbacks need state `product`
(the stored value is everything after the first colon: under the
`product:` prefix guard the first colon is at character index 7, so
`call.data.split(":", 1)[1]` is the drop of 8 characters); `media:done` needs state `media`;
`confirm:restart` and `confirm:send` need state `confirm`. -/
def callbackStep (gw : Nat → Option String) (cfg : Config) (s : Session) (d : String) : StepResult :=
  if d = "cancel" then ⟨emptySession, [cancelMsg], []⟩
  else if s.phase = Phase.product ∧ pyStartsWith d "product:" = true then
    ⟨⟨Phase.game_title, { s.data with product := Option.some (pyDropChars d 8) }⟩,
      [titlePrompt], []⟩
  else if s.phase = Phase.media ∧ d = "media:done" then
    ⟨⟨Phase.confirm, s.data⟩, [previewPrefix ++ format_post s.data], []⟩
  else if s.phase = Phase.confirm ∧ d = "confirm:restart" then
    ⟨⟨Phase.product, emptyFormData⟩, [restartMsg], []⟩
  else if s.phase = Phase.confirm ∧ d = "confirm:send" then
    sendFlow gw cfg s
  else noop s

/-- One dispatcher step: the first handler (in registration order) whose
filters match the event runs; otherwise nothing happens.  `/start` and
`/cancel` match in every state. -/
def step (gw : Nat → Option String) (cfg : Config) (s : Session) (e : Event) : StepResult :=
  match e with
  | Event.startCmd => ⟨⟨Phase.product, emptyFormData⟩, [startPrompt], []⟩
  | Event.cancelCmd => ⟨emptySession, [cancelMsg], []⟩
  | Event.textMsg t => textPhaseStep s t
  | Event.photoMsg v0 rest =>
      if s.phase = Phase.media then
        let b := ensure_media_bucket s.data
        let b2 := MediaBucket.mk (b.photos ++ [(v0 :: rest).getLastD v0]) b.videos
        ⟨⟨Phase.media, { s.data with media_bucket := Option.some b2 }⟩, [], []⟩
      else textPhaseStep s Option.none
  | Event.videoMsg fid =>
      if s.phase = Phase.media then
        let b := ensure_media_bucket s.data
        let b2 := MediaBucket.mk b.photos (b.videos ++ [fid])
        ⟨⟨Phase.media, { s.data with media_bucket := Option.some b2 }⟩, [], []⟩
      else textPhaseStep s Option.none
  | Event.callbackMsg d => callbackStep gw cfg s d

/-! Helper lemmas about strings and the rendered line list. -/

lemma strData_append (a b : String) : (a ++ b).data = a.data ++ b.data := rfl

lemma strAppend_assoc (a b c : String) : (a ++ b) ++ c = a ++ (b ++ c) := by
  apply String.ext
  simp only [strData_append, List.append_assoc]

lemma append_ne_append_of_get (p q v w : String) (i : Nat)
    (hip : i < p.data.length) (hiq : i < q.data.length)
    (h : p.data[i]? ≠ q.data[i]?) : p ++ v ≠ q ++ w := by
  intro heq
  have h2 : (p.data ++ v.data)[i]? = (q.data ++ w.data)[i]? := by
    rw [← strData_append, ← strData_append, heq]
  rw [List.getElem?_append_left hip, List.getElem?_append_left hiq] at h2
  exact h h2

lemma append_ne_empty (p v : String) (hp : p.data ≠ []) : p ++ v ≠ "" := by
  intro h
  have h2 : p.data ++ v.data = [] := congrArg String.data h
  exact hp (List.append_eq_nil.mp h2).1

lemma dropWhile_listStrip (l : List Char) :
    List.dropWhile Char.isWhitespace (listStrip l) = listStrip l := by
  rcases hr : listStrip l with _ | ⟨c, cs⟩
  · simp
  · unfold listStrip at hr
    obtain ⟨t, ht⟩ :=
      List.rdropWhile_prefix Char.isWhitespace
        (List.dropWhile Char.isWhitespace l)
    rw [hr] at ht
    have h0 : 0 < (List.dropWhile Char.isWhitespace l).length := by
      rw [← ht]; simp
    have hw := List.dropWhile_get_zero_not Char.isWhitespace l h0
    have hc : ¬ Char.isWhitespace c = true := by
      have hg : (List.dropWhile Char.isWhitespace l).get ⟨0, h0⟩ = c := by
        simp [← ht]
      rwa [hg] at hw
    simp [List.dropWhile_cons, hc]

lemma listStrip_idem (l : List Char) : listStrip (listStrip l) = listStrip l := by
  conv_lhs => rw [listStrip]
  rw [dropWhile_listStrip]
  conv_lhs => rw [listStrip]
  rw [List.rdropWhile_idempotent]
  rfl

lemma pyStrip_idem (s : String) : pyStrip (pyStrip s) = pyStrip s :=
  congrArg String.mk (listStrip_idem s.data)

lemma issuesLine_ne_empty (v : String) : issuesLine v ≠ "" :=
  append_ne_empty _ _ (by decide)

lemma issuesLine_ne_headerLine (v pt : String) : issuesLine v ≠ headerLine pt := by
  unfold issuesLine headerLine
  rw [strAppend_assoc]
  exact append_ne_append_of_get _ _ _ _ 3 (by decide) (by decide) (by decide)

lemma issuesLine_ne_gameLine (v w : String) : issuesLine v ≠ gameLine w :=
  append_ne_append_of_get _ _ _ _ 3 (by decide) (by decide) (by decide)

lemma issuesLine_ne_deviceLine (v w : String) : issuesLine v ≠ deviceLine w :=
  append_ne_append_of_get _ _ _ _ 3 (by decide) (by decide) (by decide)

lemma issuesLine_ne_versionLine (v pt w : String) : issuesLine v ≠ versionLine pt w := by
  unfold issuesLine versionLine
  rw [strAppend_assoc, strAppend_assoc]
  exact append_ne_append_of_get _ _ _ _ 3 (by decide) (by decide) (by decide)

lemma issuesLine_ne_settingsLine (v w : String) : issuesLine v ≠ settingsLine w :=
  append_ne_append_of_get _ _ _ _ 3 (by decide) (by decide) (by decide)

lemma issuesLine_ne_fpsLine (v w : String) : issuesLine v ≠ fpsLine w :=
  append_ne_append_of_get _ _ _ _ 3 (by decide) (by decide) (by decide)

lemma issuesLine_ne_extraLine (v w : String) : issuesLine v ≠ extraLine w :=
  append_ne_append_of_get _ _ _ _ 3 (by decide) (by decide) (by decide)

lemma issuesLine_ne_authorLine (v w : String) : issuesLine v ≠ authorLine w :=
  append_ne_append_of_get _ _ _ _ 3 (by decide) (by decide) (by decide)

lemma authorLine_ne_issuesLine (v w : String) : authorLine v ≠ issuesLine w :=
  append_ne_append_of_get _ _ _ _ 3 (by decide) (by decide) (by decide)

lemma authorLine_ne_extraLine (v w : String) : authorLine v ≠ extraLine w :=
  append_ne_append_of_get _ _ _ _ 3 (by decide) (by decide) (by decide)

lemma authorLine_ne_fpsLine (v w : String) : authorLine v ≠ fpsLine w :=
  append_ne_append_of_get _ _ _ _ 3 (by decide) (by decide) (by decide)

lemma mem_ite_singleton {α : Type} (c : Prop) [Decidable c] (a x : α) :
    x ∈ (if c then [a] else ([] : List α)) ↔ c ∧ x = a := by
  split_ifs with h <;> simp [h]

lemma mem_ite_pair {α : Type} (c : Prop) [Decidable c] (a b x : α) :
    x ∈ (if c then [a, b] else ([] : List α)) ↔ c ∧ (x = a ∨ x = b) := by
  split_ifs with h <;> simp [h]

/-- Characterization of membership in the rendered line list. -/
lemma mem_format_iff (d : FormData) (x : String) :
    x ∈ format_post_lines d ↔
      ((x = headerLine (productTitle d) ∨ x = "" ∨
        x = gameLine (gval d.game_title) ∨ x = deviceLine (gval d.device) ∨
        x = versionLine (productTitle d) (gval d.app_version) ∨
        x = settingsLine (gval d.settings) ∨ x = fpsLine (gval d.fps)) ∨
       (gval d.issues ≠ "" ∧ x = issuesLine (gval d.issues)) ∨
       (gval d.extra ≠ "" ∧ x = extraLine (gval d.extra)) ∨
       (gval d.author ≠ "" ∧ (x = "" ∨ x = authorLine (gval d.author)))) := by
  simp only [format_post_lines, List.mem_append, List.mem_cons, List.not_mem_nil,
    or_false, mem_ite_singleton, mem_ite_pair, or_assoc]

/-- When every attempt up to the plan length succeeds, all sends are
delivered and no fault is reported. -/
lemma runSends_ok (gw : Nat → Option String) (l : List Send) :
    ∀ i, (∀ j, j < l.length → gw (i + j) = Option.none) →
      runSends gw i l = (l, Option.none) := by
  induction l with
  | nil => intro i _; rfl
  | cons x rest ih =>
      intro i h
      have h0 : gw i = Option.none := by
        have := h 0 (by simp)
        simpa using this
      have hr : runSends gw (i + 1) rest = (rest, Option.none) := by
        apply ih
        intro j hj
        have := h (j + 1) (by simpa using Nat.succ_lt_succ hj)
        have heq : i + (j + 1) = i + 1 + j := by omega
        rw [heq] at this; exact this
      simp [runSends, h0, hr]

/-- When the first fault happens at attempt `k` (within the plan), exactly
the first `k` sends are delivered and the fault is surfaced. -/
lemma runSends_fault (gw : Nat → Option String) (l : List Send) :
    ∀ i k e, k < l.length → gw (i + k) = Option.some e →
      (∀ j, j < k → gw (i + j) = Option.none) →
      runSends gw i l = (l.take k, Option.some e) := by
  induction l with
  | nil => intro i k e hk _ _; exact absurd hk (by simp)
  | cons x rest ih =>
      intro i k e hk hke hj
      cases k with
      | zero =>
          have h0 : gw i = Option.some e := by simpa using hke
          simp [runSends, h0]
      | succ k =>
          have h0 : gw i = Option.none := by
            have := hj 0 (Nat.succ_pos k)
            simpa using this
          have hr : runSends gw (i + 1) rest = (rest.take k, Option.some e) := by
            apply ih
            · simpa using Nat.lt_of_succ_lt_succ hk
            · have : i + (k + 1) = i + 1 + k := by omega
              rw [← this]; exact hke
            · intro j hjk
              have := hj (j + 1) (Nat.succ_lt_succ hjk)
              have heq : i + (j + 1) = i + 1 + j := by omega
              rw [heq] at this; exact this
          simp [runSends, h0, hr]

/-- A callback whose data is not `cancel`, in a phase with no callback
handler for it, is dropped: no state change, no reply, no send. -/
lemma callback_dropped (gw : Nat → Option String) (cfg : Config) (s : Session)
    (d : String) (hc : d ≠ "cancel")
    (h1 : s.phase ≠ Phase.product) (h2 : s.phase ≠ Phase.media)
    (h3 : s.phase ≠ Phase.confirm) :
    step gw cfg s (Event.callbackMsg d) = noop s := by
  show callbackStep gw cfg s d = noop s
  unfold callbackStep
  rw [if_neg hc, if_neg (fun h => h1 h.1), if_neg (fun h => h2 h.1),
    if_neg (fun h => h3 h.1), if_neg (fun h => h3 h.1)]

/-- In the confirm phase the `confirm:send` button runs the send flow. -/
lemma step_confirm_send (gw : Nat → Option String) (cfg : Config) (s : Session)
    (hp : s.phase = Phase.confirm) :
    step gw cfg s (Event.callbackMsg "confirm:send") = sendFlow gw cfg s := by
  show callbackStep gw cfg s "confirm:send" = sendFlow gw cfg s
  unfold callbackStep
  rw [if_neg (by decide : ¬ (("confirm:send" : String) = "cancel")),
    if_neg (fun h => by rw [hp] at h; exact absurd h.1 (by decide)),
    if_neg (fun h => by rw [hp] at h; exact absurd h.1 (by decide)),
    if_neg (fun h => absurd h.2 (by decide)),
    if_pos ⟨hp, rfl⟩]

/-! Concrete fixtures shared by witnesses and counterexamples. -/

def gwNone : Nat → Option String := fun _ => Option.none

def cfgNone : Config := ⟨Option.none⟩

def sMedia : Session :=
  ⟨Phase.media, { emptyFormData with media_bucket := Option.some ⟨["p0"], ["v0"]⟩ }⟩

/-- C9: the explicit cancel event — the `/cancel` command or the `cancel`
button — is accepted in every phase; handling it clears all collected
fields and all accumulated media and sets the phase to no-session. -/
theorem cancel_always_clears (gw : Nat → Option String) (cfg : Config) (s : Session) :
    step gw cfg s Event.cancelCmd = ⟨⟨Phase.nostate, emptyFormData⟩, [cancelMsg], []⟩
    ∧ step gw cfg s (Event.callbackMsg "cancel") =
        ⟨⟨Phase.nostate, emptyFormData⟩, [cancelMsg], []⟩ := by
  constructor
  · rfl
  · show callbackStep gw cfg s "cancel" = _
    unfold callbackStep
    rw [if_pos rfl]
    rfl

/-- C8: the send choice in the confirm phase with no configured destination
replies with the configuration instruction, delivers nothing, and leaves
the session untouched. -/
theorem send_no_target (gw : Nat → Option String) (cfg : Config) (s : Session)
    (hp : s.phase = Phase.confirm) (ht : cfg.target_chat_id = Option.none) :
    step gw cfg s (Event.callbackMsg "confirm:send") = ⟨s, [noTargetMsg], []⟩ := by
  rw [step_confirm_send gw cfg s hp]
  unfold sendFlow
  rw [ht]
  rfl

theorem send_no_target_witness :
    step gwNone cfgNone ⟨Phase.confirm, emptyFormData⟩ (Event.callbackMsg "confirm:send") =
      ⟨⟨Phase.confirm, emptyFormData⟩, [noTargetMsg], []⟩ :=
  send_no_target gwNone cfgNone ⟨Phase.confirm, emptyFormData⟩ rfl rfl

/-- Session data with the media bucket replaced. -/
def withBucket (d : FormData) (b : MediaBucket) : FormData :=
  { d with media_bucket := Option.some b }

/-- C7: in the media phase an image event appends exactly the
highest-resolution variant (the last of the size list) to the end of the
photo list, a clip event appends its file id to the end of the video list,
nothing else in the session changes, the phase stays `media`, and no reply
or delivery happens; image A then image B then clip C accumulate to
photos ++ [A, B] and videos ++ [C]. -/
theorem media_append_only (gw : Nat → Option String) (cfg : Config) (s : Session)
    (hp : s.phase = Phase.media) (v0 : String) (rest : List String)
    (fid A B C : String) :
    (step gw cfg s (Event.photoMsg v0 rest) =
      ⟨⟨Phase.media, withBucket s.data
          ⟨(ensure_media_bucket s.data).photos ++ [(v0 :: rest).getLastD v0],
           (ensure_media_bucket s.data).videos⟩⟩, [], []⟩)
    ∧ (step gw cfg s (Event.videoMsg fid) =
      ⟨⟨Phase.media, withBucket s.data
          ⟨(ensure_media_bucket s.data).photos,
           (ensure_media_bucket s.data).videos ++ [fid]⟩⟩, [], []⟩)
    ∧ (ensure_media_bucket
         (step gw cfg
           (step gw cfg (step gw cfg s (Event.photoMsg A [])).session
             (Event.photoMsg B [])).session
           (Event.videoMsg C)).session.data =
       ⟨(ensure_media_bucket s.data).photos ++ [A, B],
        (ensure_media_bucket s.data).videos ++ [C]⟩) := by
  obtain ⟨ph, d⟩ := s
  cases hp
  refine ⟨rfl, rfl, ?_⟩
  simp [step, ensure_media_bucket, List.append_assoc]

theorem media_append_only_witness :
    step gwNone cfgNone sMedia (Event.photoMsg "a" ["b"]) =
      ⟨⟨Phase.media, withBucket sMedia.data
          ⟨(ensure_media_bucket sMedia.data).photos ++ [(("a" : String) :: ["b"]).getLastD "a"],
           (ensure_media_bucket sMedia.data).videos⟩⟩, [], []⟩ :=
  (media_append_only gwNone cfgNone sMedia rfl "a" ["b"] "f" "A" "B" "C").1

/-- C10: the renderer is total over arbitrary session data; whenever the
category field is absent or anything other than exactly "winlator" the
header and version label use "GameHub", and every missing core field
renders as an empty value after its label. -/
theorem renderer_total_gamehub (d : FormData)
    (hprod : d.product ≠ Option.some "winlator") :
    (format_post_lines d).head? = Option.some (headerLine "GameHub")
    ∧ versionLine "GameHub" (gval d.app_version) ∈ format_post_lines d
    ∧ (d.game_title = Option.none → gameLine "" ∈ format_post_lines d)
    ∧ (d.device = Option.none → deviceLine "" ∈ format_post_lines d)
    ∧ (d.app_version = Option.none → versionLine "GameHub" "" ∈ format_post_lines d)
    ∧ (d.settings = Option.none → settingsLine "" ∈ format_post_lines d)
    ∧ (d.fps = Option.none → fpsLine "" ∈ format_post_lines d) := by
  have hpt : productTitle d = "GameHub" := by
    unfold productTitle
    rw [if_neg hprod]
  refine ⟨?_, ?_, ?_, ?_, ?_, ?_, ?_⟩
  · simp [format_post_lines, hpt]
  · rw [mem_format_iff]
    exact Or.inl (Or.inr (Or.inr (Or.inr (Or.inr (Or.inl (by rw [hpt]))))))
  · intro h
    rw [mem_format_iff]
    exact Or.inl (Or.inr (Or.inr (Or.inl (by rw [h]; rfl))))
  · intro h
    rw [mem_format_iff]
    exact Or.inl (Or.inr (Or.inr (Or.inr (Or.inl (by rw [h]; rfl)))))
  · intro h
    rw [mem_format_iff]
    exact Or.inl (Or.inr (Or.inr (Or.inr (Or.inr (Or.inl (by rw [h, hpt]; rfl))))))
  · intro h
    rw [mem_format_iff]
    exact Or.inl (Or.inr (Or.inr (Or.inr (Or.inr (Or.inr (Or.inl (by rw [h]; rfl)))))))
  · intro h
    rw [mem_format_iff]
    exact Or.inl (Or.inr (Or.inr (Or.inr (Or.inr (Or.inr (Or.inr (by rw [h]; rfl)))))))

theorem renderer_total_gamehub_witness :
    (format_post_lines emptyFormData).head? = Option.some (headerLine "GameHub") :=
  (renderer_total_gamehub emptyFormData (by decide)).1

/-- C2: with a destination configured, the send choice in the confirm phase
delivers the rendered document first, then every photo in insertion order,
then every video in insertion order (`sendPlan`); if every attempt succeeds
the whole plan is delivered, the session is cleared to no-session and the
completion reply is sent; the first faulting attempt aborts the remaining
sends, surfaces the fault detail, and leaves the whole session intact. -/
theorem send_flow_spec (gw : Nat → Option String) (cfg : Config) (s : Session)
    (hp : s.phase = Phase.confirm) (ht : truthyChat cfg.target_chat_id = true) :
    ((∀ j, j < (sendPlan s.data).length → gw j = Option.none) →
       step gw cfg s (Event.callbackMsg "confirm:send") =
         ⟨⟨Phase.nostate, emptyFormData⟩, [sentOkMsg], sendPlan s.data⟩)
    ∧ (∀ k e, k < (sendPlan s.data).length → gw k = Option.some e →
         (∀ j, j < k → gw j = Option.none) →
       step gw cfg s (Event.callbackMsg "confirm:send") =
         ⟨s, [errPrefix ++ e], (sendPlan s.data).take k⟩) := by
  rw [step_confirm_send gw cfg s hp]
  unfold sendFlow
  rw [if_neg (by rw [ht]; exact fun h => Bool.noConfusion h)]
  constructor
  · intro hok
    have h1 : runSends gw 0 (sendPlan s.data) = (sendPlan s.data, Option.none) := by
      apply runSends_ok
      intro j hj
      rw [Nat.zero_add]
      exact hok j hj
    rw [h1]
    rfl
  · intro k e hk hke hj
    have h1 : runSends gw 0 (sendPlan s.data) = ((sendPlan s.data).take k, Option.some e) := by
      apply runSends_fault gw (sendPlan s.data) 0 k e hk
      · rw [Nat.zero_add]; exact hke
      · intro j hjk
        rw [Nat.zero_add]
        exact hj j hjk
    rw [h1]

def dSendWit : FormData :=
  { emptyFormData with
      product := Option.some "winlator"
      media_bucket := Option.some ⟨["p1", "p2"], ["v1"]⟩ }

theorem send_flow_spec_witness :
    step gwNone ⟨Option.some 42⟩ ⟨Phase.confirm, dSendWit⟩ (Event.callbackMsg "confirm:send") =
      ⟨⟨Phase.nostate, emptyFormData⟩, [sentOkMsg], sendPlan dSendWit⟩ :=
  (send_flow_spec gwNone ⟨Option.some 42⟩ ⟨Phase.confirm, dSendWit⟩ rfl (by decide)).1
    (fun j hj => rfl)

lemma extraLine_ne_empty (v : String) : extraLine v ≠ "" :=
  append_ne_empty _ _ (by decide)

lemma extraLine_ne_headerLine (v pt : String) : extraLine v ≠ headerLine pt := by
  unfold extraLine headerLine
  rw [strAppend_assoc]
  exact append_ne_append_of_get _ _ _ _ 3 (by decide) (by decide) (by decide)

lemma extraLine_ne_gameLine (v w : String) : extraLine v ≠ gameLine w :=
  append_ne_append_of_get _ _ _ _ 3 (by decide) (by decide) (by decide)

lemma extraLine_ne_deviceLine (v w : String) : extraLine v ≠ deviceLine w :=
  append_ne_append_of_get _ _ _ _ 3 (by decide) (by decide) (by decide)

lemma extraLine_ne_versionLine (v pt w : String) : extraLine v ≠ versionLine pt w := by
  unfold extraLine versionLine
  rw [strAppend_assoc, strAppend_assoc]
  exact append_ne_append_of_get _ _ _ _ 3 (by decide) (by decide) (by decide)

lemma extraLine_ne_settingsLine (v w : String) : extraLine v ≠ settingsLine w :=
  append_ne_append_of_get _ _ _ _ 3 (by decide) (by decide) (by decide)

lemma extraLine_ne_fpsLine (v w : String) : extraLine v ≠ fpsLine w :=
  append_ne_append_of_get _ _ _ _ 3 (by decide) (by decide) (by decide)

lemma extraLine_ne_issuesLine (v w : String) : extraLine v ≠ issuesLine w :=
  append_ne_append_of_get _ _ _ _ 3 (by decide) (by decide) (by decide)

lemma extraLine_ne_authorLine (v w : String) : extraLine v ≠ authorLine w :=
  append_ne_append_of_get _ _ _ _ 3 (by decide) (by decide) (by decide)

/-- When the stored issues value renders empty, no issues line of any value
appears in the document. -/
lemma issuesLine_not_mem (d : FormData) (hi : gval d.issues = "") (v : String) :
    issuesLine v ∉ format_post_lines d := by
  intro hm
  rw [mem_format_iff] at hm
  rcases hm with (h | h | h | h | h | h | h) | ⟨hc, h⟩ | ⟨hc, h⟩ | ⟨hc, h⟩
  · exact issuesLine_ne_headerLine v _ h
  · exact issuesLine_ne_empty v h
  · exact issuesLine_ne_gameLine v _ h
  · exact issuesLine_ne_deviceLine v _ h
  · exact issuesLine_ne_versionLine v _ _ h
  · exact issuesLine_ne_settingsLine v _ h
  · exact issuesLine_ne_fpsLine v _ h
  · exact hc hi
  · exact issuesLine_ne_extraLine v _ h
  · rcases h with h | h
    · exact issuesLine_ne_empty v h
    · exact issuesLine_ne_authorLine v _ h

/-- When the stored extra value renders empty, no extra line of any value
appears in the document. -/
lemma extraLine_not_mem (d : FormData) (he : gval d.extra = "") (v : String) :
    extraLine v ∉ format_post_lines d := by
  intro hm
  rw [mem_format_iff] at hm
  rcases hm with (h | h | h | h | h | h | h) | ⟨hc, h⟩ | ⟨hc, h⟩ | ⟨hc, h⟩
  · exact extraLine_ne_headerLine v _ h
  · exact extraLine_ne_empty v h
  · exact extraLine_ne_gameLine v _ h
  · exact extraLine_ne_deviceLine v _ h
  · exact extraLine_ne_versionLine v _ _ h
  · exact extraLine_ne_settingsLine v _ h
  · exact extraLine_ne_fpsLine v _ h
  · exact extraLine_ne_issuesLine v _ h
  · exact hc he
  · rcases h with h | h
    · exact extraLine_ne_empty v h
    · exact extraLine_ne_authorLine v _ h

lemma issuesLine_mem (d : FormData) (hi : gval d.issues ≠ "") :
    issuesLine (gval d.issues) ∈ format_post_lines d := by
  rw [mem_format_iff]
  exact Or.inr (Or.inl ⟨hi, rfl⟩)

lemma extraLine_mem (d : FormData) (he : gval d.extra ≠ "") :
    extraLine (gval d.extra) ∈ format_post_lines d := by
  rw [mem_format_iff]
  exact Or.inr (Or.inr (Or.inl ⟨he, rfl⟩))

/-- C4: a text answered to the issues or extra step is whitespace-trimmed;
when the trimmed value case-insensitively matches a negative token the
stored value is the empty string and the issues (resp. extra) line is
omitted from the rendered document; otherwise the trimmed text is stored
and, when non-empty, its line is included. -/
theorem issues_extra_negative_tokens (gw : Nat → Option String) (cfg : Config)
    (s : Session) (t : Option String) :
    (s.phase = Phase.issues →
      ((step gw cfg s (Event.textMsg t)).session.data.issues = Option.some (normNeg t)
       ∧ (negTokens.contains (pyLower (pyStrip (t.getD ""))) = true →
           normNeg t = ""
           ∧ ∀ v, issuesLine v ∉
               format_post_lines (step gw cfg s (Event.textMsg t)).session.data)
       ∧ (negTokens.contains (pyLower (pyStrip (t.getD ""))) = false →
           normNeg t = pyStrip (t.getD "")
           ∧ (pyStrip (t.getD "") ≠ "" →
               issuesLine (pyStrip (t.getD "")) ∈
                 format_post_lines (step gw cfg s (Event.textMsg t)).session.data))))
    ∧ (s.phase = Phase.extra →
      ((step gw cfg s (Event.textMsg t)).session.data.extra = Option.some (normNeg t)
       ∧ (negTokens.contains (pyLower (pyStrip (t.getD ""))) = true →
           normNeg t = ""
           ∧ ∀ v, extraLine v ∉
               format_post_lines (step gw cfg s (Event.textMsg t)).session.data)
       ∧ (negTokens.contains (pyLower (pyStrip (t.getD ""))) = false →
           normNeg t = pyStrip (t.getD "")
           ∧ (pyStrip (t.getD "") ≠ "" →
               extraLine (pyStrip (t.getD "")) ∈
                 format_post_lines (step gw cfg s (Event.textMsg t)).session.data)))) := by
  obtain ⟨ph, d⟩ := s
  constructor
  · intro hp
    cases hp
    refine ⟨rfl, ?_, ?_⟩
    · intro hneg
      have hnn : normNeg t = "" := by
        unfold normNeg
        rw [if_pos hneg]
      refine ⟨hnn, ?_⟩
      show ∀ v, issuesLine v ∉
        format_post_lines { d with issues := Option.some (normNeg t) }
      apply issuesLine_not_mem
      show gval (Option.some (normNeg t)) = ""
      rw [hnn]
      rfl
    · intro hneg
      have hnn : normNeg t = pyStrip (t.getD "") := by
        unfold normNeg
        rw [if_neg (fun h => by rw [hneg] at h; exact Bool.noConfusion h)]
      refine ⟨hnn, ?_⟩
      intro hne
      have hg : gval ({ d with issues := Option.some (normNeg t) } : FormData).issues
          = pyStrip (t.getD "") := by
        show pyStrip (normNeg t) = pyStrip (t.getD "")
        rw [hnn]
        exact pyStrip_idem _
      have hm := issuesLine_mem { d with issues := Option.some (normNeg t) }
        (by rw [hg]; exact hne)
      rw [hg] at hm
      exact hm
  · intro hp
    cases hp
    refine ⟨rfl, ?_, ?_⟩
    · intro hneg
      have hnn : normNeg t = "" := by
        unfold normNeg
        rw [if_pos hneg]
      refine ⟨hnn, ?_⟩
      show ∀ v, extraLine v ∉
        format_post_lines { d with extra := Option.some (normNeg t) }
      apply extraLine_not_mem
      show gval (Option.some (normNeg t)) = ""
      rw [hnn]
      rfl
    · intro hneg
      have hnn : normNeg t = pyStrip (t.getD "") := by
        unfold normNeg
        rw [if_neg (fun h => by rw [hneg] at h; exact Bool.noConfusion h)]
      refine ⟨hnn, ?_⟩
      intro hne
      have hg : gval ({ d with extra := Option.some (normNeg t) } : FormData).extra
          = pyStrip (t.getD "") := by
        show pyStrip (normNeg t) = pyStrip (t.getD "")
        rw [hnn]
        exact pyStrip_idem _
      have hm := extraLine_mem { d with extra := Option.some (normNeg t) }
        (by rw [hg]; exact hne)
      rw [hg] at hm
      exact hm

theorem issues_extra_negative_tokens_witness :
    normNeg (Option.some " НЕТ ") = ""
    ∧ ∀ v, issuesLine v ∉ format_post_lines
        (step gwNone cfgNone ⟨Phase.issues, emptyFormData⟩
          (Event.textMsg (Option.some " НЕТ "))).session.data :=
  ((issues_extra_negative_tokens gwNone cfgNone ⟨Phase.issues, emptyFormData⟩
      (Option.some " НЕТ ")).1 rfl).2.1 (by decide)

/-- The rendered line list, written out (the `let` of the definition
expanded). -/
lemma format_post_lines_eq (d : FormData) :
    format_post_lines d =
      [headerLine (productTitle d), "", gameLine (gval d.game_title),
       deviceLine (gval d.device), versionLine (productTitle d) (gval d.app_version),
       settingsLine (gval d.settings), fpsLine (gval d.fps)]
      ++ (if gval d.issues ≠ "" then [issuesLine (gval d.issues)] else [])
      ++ (if gval d.extra ≠ "" then [extraLine (gval d.extra)] else [])
      ++ (if gval d.author ≠ "" then ["", authorLine (gval d.author)] else []) := rfl

def dAuthorSpace : FormData := { emptyFormData with author := Option.some " " }

/-- C5 counterexample: with the author field stored as a non-empty
whitespace string, the rendered document contains no line preceded by a
blank line at all — in particular no author line — although the author
field is non-empty, refuting the if-and-only-if as stated. -/
theorem author_line_iff_counterexample :
    dAuthorSpace.author = Option.some " "
    ∧ Option.some " " ≠ (Option.some "" : Option String)
    ∧ ¬ ∃ pre last, format_post_lines dAuthorSpace = pre ++ ["", last] := by
  refine ⟨rfl, by decide, ?_⟩
  rintro ⟨pre, last, h⟩
  have h1 : (format_post_lines dAuthorSpace).dropLast.getLast? = Option.some "" := by
    rw [h, show pre ++ ["", last] = (pre ++ [""]) ++ [last] by simp,
      List.dropLast_concat, List.getLast?_concat]
  have h2 : (format_post_lines dAuthorSpace).dropLast.getLast? =
      Option.some (settingsLine "") := by decide
  rw [h2] at h1
  exact absurd (Option.some.inj h1) (by decide)

/-- C5 (amended): every rendered document contains one line per core field
(title, device, version labelled with the category name, configuration,
performance) even when the stored value is empty, and it ends with a blank
line followed by the author line exactly when the whitespace-trimmed
author field is non-empty. -/
theorem core_lines_and_author_block (d : FormData) :
    headerLine (productTitle d) ∈ format_post_lines d
    ∧ gameLine (gval d.game_title) ∈ format_post_lines d
    ∧ deviceLine (gval d.device) ∈ format_post_lines d
    ∧ versionLine (productTitle d) (gval d.app_version) ∈ format_post_lines d
    ∧ settingsLine (gval d.settings) ∈ format_post_lines d
    ∧ fpsLine (gval d.fps) ∈ format_post_lines d
    ∧ ((∃ pre, format_post_lines d = pre ++ ["", authorLine (gval d.author)]) ↔
        gval d.author ≠ "") := by
  refine ⟨?_, ?_, ?_, ?_, ?_, ?_, ?_, ?_⟩
  · rw [mem_format_iff]; exact Or.inl (Or.inl rfl)
  · rw [mem_format_iff]; exact Or.inl (Or.inr (Or.inr (Or.inl rfl)))
  · rw [mem_format_iff]; exact Or.inl (Or.inr (Or.inr (Or.inr (Or.inl rfl))))
  · rw [mem_format_iff]
    exact Or.inl (Or.inr (Or.inr (Or.inr (Or.inr (Or.inl rfl)))))
  · rw [mem_format_iff]
    exact Or.inl (Or.inr (Or.inr (Or.inr (Or.inr (Or.inr (Or.inl rfl))))))
  · rw [mem_format_iff]
    exact Or.inl (Or.inr (Or.inr (Or.inr (Or.inr (Or.inr (Or.inr rfl))))))
  · rintro ⟨pre, hpre⟩
    intro hau
    have h1 : (format_post_lines d).getLast? =
        Option.some (authorLine (gval d.author)) := by
      rw [hpre, show pre ++ ["", authorLine (gval d.author)] =
        (pre ++ [""]) ++ [authorLine (gval d.author)] by simp, List.getLast?_concat]
    rw [format_post_lines_eq,
      if_neg (show ¬ (gval d.author ≠ "") from fun hne => hne hau),
      List.append_nil] at h1
    by_cases hE : gval d.extra ≠ ""
    · rw [if_pos hE, List.getLast?_concat] at h1
      exact extraLine_ne_authorLine _ _ (Option.some.inj h1)
    · rw [if_neg hE, List.append_nil] at h1
      by_cases hI : gval d.issues ≠ ""
      · rw [if_pos hI, List.getLast?_concat] at h1
        exact issuesLine_ne_authorLine _ _ (Option.some.inj h1)
      · rw [if_neg hI, List.append_nil] at h1
        have h2 : ([headerLine (productTitle d), "", gameLine (gval d.game_title),
            deviceLine (gval d.device),
            versionLine (productTitle d) (gval d.app_version),
            settingsLine (gval d.settings),
            fpsLine (gval d.fps)] : List String).getLast? =
            Option.some (fpsLine (gval d.fps)) := rfl
        rw [h2] at h1
        exact authorLine_ne_fpsLine _ _ (Option.some.inj h1).symm
  · intro hne
    refine ⟨[headerLine (productTitle d), "", gameLine (gval d.game_title),
      deviceLine (gval d.device), versionLine (productTitle d) (gval d.app_version),
      settingsLine (gval d.settings), fpsLine (gval d.fps)]
      ++ (if gval d.issues ≠ "" then [issuesLine (gval d.issues)] else [])
      ++ (if gval d.extra ≠ "" then [extraLine (gval d.extra)] else []), ?_⟩
    rw [format_post_lines_eq, if_pos hne]

def dC5w : FormData := { emptyFormData with author := Option.some "@x" }

theorem core_lines_and_author_block_witness :
    ∃ pre, format_post_lines dC5w = pre ++ ["", authorLine (gval dC5w.author)] :=
  (core_lines_and_author_block dC5w).2.2.2.2.2.2.mpr (by decide)

def dC6 : FormData := { emptyFormData with game_title := Option.some " a " }

/-- C6 counterexample: the stored game-title " a " is not inserted
character for character after its label — its line carries the trimmed
value instead — refuting the verbatim-insertion claim as stated. -/
theorem verbatim_insert_counterexample :
    dC6.game_title = Option.some " a "
    ∧ gameLine " a " ∉ format_post_lines dC6
    ∧ gameLine "a" ∈ format_post_lines dC6 := by
  refine ⟨rfl, by decide, by decide⟩

/-- C6 (amended): each stored field value is whitespace-trimmed and then
inserted into its line with no further change (in particular no escaping);
a stored value that is already trimmed therefore appears character for
character after the label. -/
theorem trimmed_verbatim_insert (d : FormData) :
    gameLine (pyStrip (d.game_title.getD "")) ∈ format_post_lines d
    ∧ deviceLine (pyStrip (d.device.getD "")) ∈ format_post_lines d
    ∧ versionLine (productTitle d) (pyStrip (d.app_version.getD "")) ∈ format_post_lines d
    ∧ settingsLine (pyStrip (d.settings.getD "")) ∈ format_post_lines d
    ∧ fpsLine (pyStrip (d.fps.getD "")) ∈ format_post_lines d
    ∧ (gval d.issues ≠ "" → issuesLine (gval d.issues) ∈ format_post_lines d)
    ∧ (gval d.extra ≠ "" → extraLine (gval d.extra) ∈ format_post_lines d)
    ∧ (gval d.author ≠ "" → authorLine (gval d.author) ∈ format_post_lines d) := by
  refine ⟨?_, ?_, ?_, ?_, ?_, ?_, ?_, ?_⟩
  · rw [mem_format_iff]; exact Or.inl (Or.inr (Or.inr (Or.inl rfl)))
  · rw [mem_format_iff]; exact Or.inl (Or.inr (Or.inr (Or.inr (Or.inl rfl))))
  · rw [mem_format_iff]
    exact Or.inl (Or.inr (Or.inr (Or.inr (Or.inr (Or.inl rfl)))))
  · rw [mem_format_iff]
    exact Or.inl (Or.inr (Or.inr (Or.inr (Or.inr (Or.inr (Or.inl rfl))))))
  · rw [mem_format_iff]
    exact Or.inl (Or.inr (Or.inr (Or.inr (Or.inr (Or.inr (Or.inr rfl))))))
  · intro h; rw [mem_format_iff]; exact Or.inr (Or.inl ⟨h, rfl⟩)
  · intro h; rw [mem_format_iff]; exact Or.inr (Or.inr (Or.inl ⟨h, rfl⟩))
  · intro h; rw [mem_format_iff]; exact Or.inr (Or.inr (Or.inr ⟨h, Or.inr rfl⟩))

def dIssuesW : FormData := { emptyFormData with issues := Option.some "lag" }

theorem trimmed_verbatim_insert_witness :
    issuesLine (gval dIssuesW.issues) ∈ format_post_lines dIssuesW :=
  (trimmed_verbatim_insert dIssuesW).2.2.2.2.2.1 (by decide)

/-- C1 counterexample: in the TITLE phase an image attachment is not
ignored — the title handler consumes it as a message with no text, stores
the empty string, advances the phase and sends the next prompt — refuting
the claim that attachments are rejected with no state change and no
reply. -/
theorem text_phase_attachment_counterexample :
    (step gwNone cfgNone ⟨Phase.game_title, emptyFormData⟩
        (Event.photoMsg "A" [])).session ≠ ⟨Phase.game_title, emptyFormData⟩
    ∧ (step gwNone cfgNone ⟨Phase.game_title, emptyFormData⟩
        (Event.photoMsg "A" [])).session.phase = Phase.device
    ∧ (step gwNone cfgNone ⟨Phase.game_title, emptyFormData⟩
        (Event.photoMsg "A" [])).session.data.game_title = Option.some ""
    ∧ (step gwNone cfgNone ⟨Phase.game_title, emptyFormData⟩
        (Event.photoMsg "A" [])).replies ≠ [] := by
  decide

/-- C1 (amended): in the text-input phases (TITLE through AUTHOR) a
button/choice event that matches no transition (anything but cancel) is
ignored with no state change, no reply and no delivery; an image or clip
attachment, however, is handled exactly like a message with a missing text
payload — stored as the empty string — and therefore advances the phase. -/
theorem text_phase_wrong_kind (gw : Nat → Option String) (cfg : Config)
    (s : Session) (d : String) (v0 : String) (rest : List String) (fid : String)
    (hp : s.phase = Phase.game_title ∨ s.phase = Phase.device ∨
      s.phase = Phase.app_version ∨ s.phase = Phase.settings ∨
      s.phase = Phase.fps ∨ s.phase = Phase.issues ∨
      s.phase = Phase.extra ∨ s.phase = Phase.author)
    (hc : d ≠ "cancel") :
    step gw cfg s (Event.callbackMsg d) = ⟨s, [], []⟩
    ∧ step gw cfg s (Event.photoMsg v0 rest) = textPhaseStep s Option.none
    ∧ step gw cfg s (Event.videoMsg fid) = textPhaseStep s Option.none
    ∧ (step gw cfg s (Event.photoMsg v0 rest)).session.phase ≠ s.phase := by
  obtain ⟨ph, dd⟩ := s
  rcases hp with hp | hp | hp | hp | hp | hp | hp | hp <;> cases hp <;>
    exact ⟨callback_dropped gw cfg _ d hc (fun h => Phase.noConfusion h)
        (fun h => Phase.noConfusion h) (fun h => Phase.noConfusion h),
      rfl, rfl, fun h => Phase.noConfusion h⟩

theorem text_phase_wrong_kind_witness :
    step gwNone cfgNone ⟨Phase.device, emptyFormData⟩ (Event.callbackMsg "media:done") =
      ⟨⟨Phase.device, emptyFormData⟩, [], []⟩ :=
  (text_phase_wrong_kind gwNone cfgNone ⟨Phase.device, emptyFormData⟩
    "media:done" "x" [] "f" (Or.inr (Or.inl rfl)) (by decide)).1

/-- C3 counterexample: in the CATEGORY phase the choice event
`product:foo` carries a value outside the two products, yet it is not
rejected: the category field becomes "foo", the phase advances to TITLE
and the title prompt is sent. -/
theorem category_filter_counterexample :
    (step gwNone cfgNone ⟨Phase.product, emptyFormData⟩
        (Event.callbackMsg "product:foo")).session.phase = Phase.game_title
    ∧ (step gwNone cfgNone ⟨Phase.product, emptyFormData⟩
        (Event.callbackMsg "product:foo")).session.data.product = Option.some "foo"
    ∧ (step gwNone cfgNone ⟨Phase.product, emptyFormData⟩
        (Event.callbackMsg "product:foo")).replies = [titlePrompt]
    ∧ ("foo" : String) ≠ "winlator" ∧ ("foo" : String) ≠ "gamehub" := by
  decide

/-- Session data with the category field replaced. -/
def withProduct (d : FormData) (v : String) : FormData :=
  { d with product := Option.some v }

/-- C3 (amended): in the CATEGORY phase a choice event whose data does not
begin with the category prefix (and is not cancel) is rejected with no
state change and no reply; a choice event with the category prefix stores
whatever follows the prefix — even a value outside the two products — and
advances to TITLE with the title prompt. -/
theorem category_choice_prefix_filter (gw : Nat → Option String) (cfg : Config)
    (s : Session) (d : String) (hp : s.phase = Phase.product)
    (hc : d ≠ "cancel") :
    (pyStartsWith d "product:" = false →
       step gw cfg s (Event.callbackMsg d) = ⟨s, [], []⟩)
    ∧ (pyStartsWith d "product:" = true →
       step gw cfg s (Event.callbackMsg d) =
         ⟨⟨Phase.game_title, withProduct s.data (pyDropChars d 8)⟩,
           [titlePrompt], []⟩) := by
  constructor
  · intro hps
    show callbackStep gw cfg s d = _
    unfold callbackStep
    rw [if_neg hc,
      if_neg (fun h => by rw [hps] at h; exact Bool.noConfusion h.2),
      if_neg (fun h => by rw [hp] at h; exact absurd h.1 (by decide)),
      if_neg (fun h => by rw [hp] at h; exact absurd h.1 (by decide)),
      if_neg (fun h => by rw [hp] at h; exact absurd h.1 (by decide))]
    rfl
  · intro hps
    show callbackStep gw cfg s d = _
    unfold callbackStep
    rw [if_neg hc, if_pos ⟨hp, hps⟩]
    rfl

theorem category_choice_prefix_filter_witness :
    step gwNone cfgNone ⟨Phase.product, emptyFormData⟩
        (Event.callbackMsg "product:gamehub") =
      ⟨⟨Phase.game_title, withProduct emptyFormData (pyDropChars "product:gamehub" 8)⟩,
        [titlePrompt], []⟩ :=
  (category_choice_prefix_filter gwNone cfgNone ⟨Phase.product, emptyFormData⟩
    "product:gamehub" rfl (by decide)).2 (by decide)

end Bot
